import Mathlib

/-!
# Verification of `src/app.py` (Option Pricing & VaR Analysis)

Shallow embedding, over the real numbers, of the numerical core of
`src/app.py`:

* `norm_cdf` / `calculate_black_scholes` — the Black–Scholes pricer
  (lines 57–67): floating-point arithmetic is modelled by real
  arithmetic, and `scipy.stats.norm.cdf` by the CDF of Mathlib's
  standard Gaussian measure `gaussianReal 0 1`.
* The Monte Carlo VaR block (lines 163–186): the stream of
  `np.random.random()` draws is modelled as an explicit list of pairs
  `(u1, u2)` of reals, one pair per trial, so that the computation is a
  pure function of the parameters and the draw list.  Python's `int()`
  truncation and (possibly negative) list indexing are modelled
  explicitly by `pyInt` and `pyGet`; an out-of-range index (a Python
  `IndexError`) is modelled as `none`.
-/

/-- Model of `norm_cdf(x)` (src/app.py lines 57–58): wraps
`scipy.stats.norm.cdf`, the standard normal cumulative distribution
function, modelled as the CDF of the Gaussian measure with mean 0 and
variance 1. -/
noncomputable def norm_cdf (x : ℝ) : ℝ :=
  ProbabilityTheory.cdf (ProbabilityTheory.gaussianReal 0 1) x

/-- Model of `calculate_black_scholes(S, K, T, r, vol)` (src/app.py
lines 60–67): returns the tuple `(d1, d2, call_price, put_price)`. -/
noncomputable def calculate_black_scholes (S K T r vol : ℝ) : ℝ × ℝ × ℝ × ℝ :=
  let d1 := (Real.log (S / K) + (r + 0.5 * vol ^ 2) * T) / (vol * Real.sqrt T)
  let d2 := d1 - vol * Real.sqrt T
  let call_price := S * norm_cdf d1 - K * Real.exp (-r * T) * norm_cdf d2
  let put_price := K * Real.exp (-r * T) * norm_cdf (-d2) - S * norm_cdf (-d1)
  (d1, d2, call_price, put_price)

/-- Model of Python's `int()` applied to a real number: truncation
toward zero. -/
noncomputable def pyInt (x : ℝ) : ℤ :=
  if 0 ≤ x then ⌊x⌋ else -⌊-x⌋

/-- Model of Python/numpy indexing `l[i]` with a possibly negative
index: a negative index counts from the end of the list; an
out-of-range index raises `IndexError`, modelled as `none`. -/
def pyGet (l : List ℝ) (i : ℤ) : Option ℝ :=
  if 0 ≤ i then l.get? i.toNat
  else if (-i).toNat ≤ l.length then l.get? (l.length - (-i).toNat)
  else none

/-- Model of the Box–Muller transform (src/app.py lines 171–174): one
standard-normal variate `z = sqrt(-2*log(u1)) * cos(2*pi*u2)` from a
pair of uniform draws `(u1, u2)`. -/
noncomputable def boxMuller (u : ℝ × ℝ) : ℝ :=
  Real.sqrt (-2 * Real.log u.1) * Real.cos (2 * Real.pi * u.2)

/-- Model of `scenario_return` (src/app.py lines 176–177). -/
noncomputable def scenario_return (portfolio_value portfolio_return portfolio_std_dev : ℝ)
    (days : ℕ) (z : ℝ) : ℝ :=
  portfolio_value * portfolio_return * days +
    portfolio_value * portfolio_std_dev * z * Real.sqrt days

/-- Model of the Monte Carlo loop (src/app.py lines 169–178): one
scenario value per pair of uniform draws; the simulation count is the
length of the draw list. -/
noncomputable def mcReturns (pv ret vol : ℝ) (days : ℕ) (us : List (ℝ × ℝ)) : List ℝ :=
  us.map (fun u => scenario_return pv ret vol days (boxMuller u))

/-- Model of `returns.sort()` (src/app.py lines 180–181): the sample
sorted ascending.  Any correct sort of a list of reals produces the
same output, so insertion sort stands in for numpy's sort. -/
noncomputable def sortedReturns (pv ret vol : ℝ) (days : ℕ) (us : List (ℝ × ℝ)) : List ℝ :=
  (mcReturns pv ret vol days us).insertionSort (· ≤ ·)

/-- Model of `var_index = int((1 - confidence) * simulations)`
(src/app.py line 183). -/
noncomputable def var_index (confidence : ℝ) (simulations : ℕ) : ℤ :=
  pyInt ((1 - confidence) * simulations)

/-- Model of `var_value = -returns[var_index]` (src/app.py line 184),
applied to the sorted sample. -/
noncomputable def var_value (pv ret vol : ℝ) (days : ℕ) (confidence : ℝ)
    (us : List (ℝ × ℝ)) : Option ℝ :=
  (pyGet (sortedReturns pv ret vol days us) (var_index confidence us.length)).map (fun x => -x)

/-- Model of `mean_return = returns.mean()` (src/app.py line 185). -/
noncomputable def mean_return (l : List ℝ) : ℝ := l.sum / l.length

/-- Model of `std_dev = returns.std()` (src/app.py line 186): numpy's
population standard deviation. -/
noncomputable def std_dev (l : List ℝ) : ℝ :=
  Real.sqrt ((l.map (fun x => (x - mean_return l) ^ 2)).sum / l.length)

/-- Model of the ticker parsing (src/app.py line 157): split the input
on commas, strip whitespace, drop entries that are empty after
stripping. -/
def ticker_list (tickers_input : String) : List String :=
  ((tickers_input.splitOn ",").map String.trim).filter (fun t => t ≠ "")

/-- Output of the VaR tab's calculation block: the rendered ticker
labels together with the computed risk numbers. -/
structure VaRTabResult where
  tickers : List String
  varValue : Option ℝ
  meanReturn : ℝ
  stdDev : ℝ
  sortedSample : List ℝ

/-- Model of the whole VaR tab computation (src/app.py lines 149–186):
ticker-list selection (lines 149–160, with the default list of line
160) followed by the Monte Carlo block with its fixed daily mean
`0.0003` and volatility `0.008` (lines 166–167). -/
noncomputable def varTab (use_custom : Bool) (tickers_input : String)
    (portfolio_value : ℝ) (days : ℕ) (confidence : ℝ) (us : List (ℝ × ℝ)) : VaRTabResult :=
  let tl := if use_custom then ticker_list tickers_input
            else ["SPY", "BND", "GLD", "QQQ", "VTI"]
  let sorted := sortedReturns portfolio_value 0.0003 0.008 days us
  { tickers := tl
    varValue := var_value portfolio_value 0.0003 0.008 days confidence us
    meanReturn := mean_return sorted
    stdDev := std_dev sorted
    sortedSample := sorted }

/-! ## Facts about the standard normal CDF -/

section NormCdfFacts

open MeasureTheory ProbabilityTheory Set

instance : NoAtoms (gaussianReal 0 1) :=
  ⟨fun x => gaussianReal_absolutelyContinuous 0 one_ne_zero (measure_singleton x)⟩

lemma stdGaussian_map_neg :
    (gaussianReal 0 1).map (fun x : ℝ => -x) = gaussianReal 0 1 := by
  have h := gaussianReal_map_const_mul (μ := 0) (v := 1) (-1)
  have he : (fun x : ℝ => -1 * x) = fun x : ℝ => -x := by
    funext x; ring
  rw [he] at h
  simpa using h

lemma gaussian_Iic_neg (x : ℝ) :
    gaussianReal 0 1 (Iic (-x)) = gaussianReal 0 1 (Ici x) := by
  conv_lhs => rw [← stdGaussian_map_neg]
  rw [Measure.map_apply measurable_neg measurableSet_Iic]
  congr 1
  ext y
  simp [neg_le_neg_iff]

lemma norm_cdf_add_norm_cdf_neg (x : ℝ) :
    norm_cdf x + norm_cdf (-x) = 1 := by
  have h1 : norm_cdf x = (gaussianReal 0 1 (Iic x)).toReal := cdf_eq_toReal _ x
  have h2 : norm_cdf (-x) = (gaussianReal 0 1 (Iic (-x))).toReal := cdf_eq_toReal _ (-x)
  have h3 : gaussianReal 0 1 (Iic (-x)) = gaussianReal 0 1 (Ioi x) := by
    rw [gaussian_Iic_neg]
    exact (measure_congr Ioi_ae_eq_Ici).symm
  have h4 : gaussianReal 0 1 (Iic x) + gaussianReal 0 1 (Ioi x) = 1 := by
    rw [← compl_Iic, measure_add_measure_compl measurableSet_Iic, measure_univ]
  have hfin1 : gaussianReal 0 1 (Iic x) ≠ ⊤ := measure_ne_top _ _
  have hfin2 : gaussianReal 0 1 (Ioi x) ≠ ⊤ := measure_ne_top _ _
  rw [h1, h2, h3, ← ENNReal.toReal_add hfin1 hfin2, h4, ENNReal.one_toReal]

lemma norm_cdf_neg (x : ℝ) : norm_cdf (-x) = 1 - norm_cdf x := by
  have h := norm_cdf_add_norm_cdf_neg x
  linarith

lemma norm_cdf_zero : norm_cdf 0 = 1 / 2 := by
  have h := norm_cdf_add_norm_cdf_neg 0
  rw [neg_zero] at h
  linarith

end NormCdfFacts

/-- Helper: the pricer at `T = 0` in the real-division model, where
division by zero yields `0` (in floating point the same division
yields NaN or Inf instead; either way no error is raised). -/
lemma calculate_black_scholes_T_zero (S K r vol : ℝ) :
    calculate_black_scholes S K 0 r vol = (0, 0, (S - K) / 2, (K - S) / 2) := by
  unfold calculate_black_scholes
  simp only [Real.sqrt_zero, mul_zero, add_zero, div_zero, Real.exp_zero, neg_zero,
    zero_sub, norm_cdf_zero]
  norm_num
  exact ⟨by ring, by ring⟩

/-! ## Helper lemmas for the VaR engine -/

lemma length_sortedReturns (pv ret vol : ℝ) (days : ℕ) (us : List (ℝ × ℝ)) :
    (sortedReturns pv ret vol days us).length = us.length := by
  simp [sortedReturns, mcReturns]

lemma pyInt_of_nonneg {x : ℝ} (h : 0 ≤ x) : pyInt x = ⌊x⌋ := if_pos h

lemma var_index_bounds {c : ℝ} {n : ℕ} (hc0 : 0 < c) (hc1 : c < 1) (hn : 0 < n) :
    var_index c n = ⌊(1 - c) * n⌋ ∧ 0 ≤ var_index c n ∧ var_index c n < n := by
  have hnR : (0 : ℝ) < n := by exact_mod_cast hn
  have hx : (0 : ℝ) ≤ (1 - c) * n := by nlinarith
  have heq : var_index c n = ⌊(1 - c) * n⌋ := pyInt_of_nonneg hx
  refine ⟨heq, ?_, ?_⟩
  · rw [heq]
    exact Int.floor_nonneg.mpr hx
  · rw [heq]
    have hlt : (1 - c) * n < n := by nlinarith
    exact Int.floor_lt.mpr (by exact_mod_cast hlt)

lemma pyGet_eq_some {l : List ℝ} {i : ℤ} (h0 : 0 ≤ i) (h : i < l.length) :
    pyGet l i = some (l.getD i.toNat 0) := by
  have hlt : i.toNat < l.length := by omega
  unfold pyGet
  rw [if_pos h0, List.get?_eq_get hlt, List.getD_eq_getElem _ _ hlt]
  rfl

lemma pyGet_isSome {l : List ℝ} {i : ℤ} (h1 : -(l.length : ℤ) ≤ i) (h2 : i < l.length) :
    ∃ x, pyGet l i = some x := by
  unfold pyGet
  by_cases h0 : 0 ≤ i
  · rw [if_pos h0]
    have hlt : i.toNat < l.length := by omega
    exact ⟨_, List.get?_eq_get hlt⟩
  · rw [if_neg h0]
    have hle : (-i).toNat ≤ l.length := by omega
    rw [if_pos hle]
    have hlt : l.length - (-i).toNat < l.length := by omega
    exact ⟨_, List.get?_eq_get hlt⟩

/-! ## Claim theorems -/

/-- C1: for every input with `S>0`, `K>0`, `T>0`, `vol>0`, the pricer
returns exactly `d1 = (ln(S/K) + (r + 0.5*vol^2)*T) / (vol*sqrt(T))`,
`d2 = d1 - vol*sqrt(T)`,
`callPrice = S*Phi(d1) - K*exp(-r*T)*Phi(d2)` and
`putPrice = K*exp(-r*T)*Phi(-d2) - S*Phi(-d1)`, where `Phi` is the
standard normal CDF. -/
theorem pricer_returns_black_scholes_formulas (S K T r vol : ℝ)
    (hS : 0 < S) (hK : 0 < K) (hT : 0 < T) (hvol : 0 < vol) :
    calculate_black_scholes S K T r vol =
      ((Real.log (S / K) + (r + 0.5 * vol ^ 2) * T) / (vol * Real.sqrt T),
       (Real.log (S / K) + (r + 0.5 * vol ^ 2) * T) / (vol * Real.sqrt T) - vol * Real.sqrt T,
       S * norm_cdf ((Real.log (S / K) + (r + 0.5 * vol ^ 2) * T) / (vol * Real.sqrt T)) -
         K * Real.exp (-r * T) *
           norm_cdf ((Real.log (S / K) + (r + 0.5 * vol ^ 2) * T) / (vol * Real.sqrt T) -
             vol * Real.sqrt T),
       K * Real.exp (-r * T) *
           norm_cdf (-((Real.log (S / K) + (r + 0.5 * vol ^ 2) * T) / (vol * Real.sqrt T) -
             vol * Real.sqrt T)) -
         S * norm_cdf (-((Real.log (S / K) + (r + 0.5 * vol ^ 2) * T) / (vol * Real.sqrt T)))) :=
  rfl

/-- Witness for C1 at `S=45, K=40, T=1/2, r=1/10, vol=1/5` (the spec's
scenario input). -/
theorem pricer_returns_black_scholes_formulas_witness :
    calculate_black_scholes 45 40 (1/2) (1/10) (1/5) =
      ((Real.log (45 / 40) + (1/10 + 0.5 * (1/5) ^ 2) * (1/2)) / ((1/5) * Real.sqrt (1/2)),
       (Real.log (45 / 40) + (1/10 + 0.5 * (1/5) ^ 2) * (1/2)) / ((1/5) * Real.sqrt (1/2)) -
         (1/5) * Real.sqrt (1/2),
       45 * norm_cdf ((Real.log (45 / 40) + (1/10 + 0.5 * (1/5) ^ 2) * (1/2)) /
           ((1/5) * Real.sqrt (1/2))) -
         40 * Real.exp (-(1/10) * (1/2)) *
           norm_cdf ((Real.log (45 / 40) + (1/10 + 0.5 * (1/5) ^ 2) * (1/2)) /
             ((1/5) * Real.sqrt (1/2)) - (1/5) * Real.sqrt (1/2)),
       40 * Real.exp (-(1/10) * (1/2)) *
           norm_cdf (-((Real.log (45 / 40) + (1/10 + 0.5 * (1/5) ^ 2) * (1/2)) /
             ((1/5) * Real.sqrt (1/2)) - (1/5) * Real.sqrt (1/2))) -
         45 * norm_cdf (-((Real.log (45 / 40) + (1/10 + 0.5 * (1/5) ^ 2) * (1/2)) /
           ((1/5) * Real.sqrt (1/2))))) :=
  pricer_returns_black_scholes_formulas 45 40 (1/2) (1/10) (1/5)
    (by norm_num) (by norm_num) (by norm_num) (by norm_num)

/-- C4 counterexample: called with `T = 0` (so `vol*sqrt(T) = 0`), the
pricer does not fail with any error signal; it returns an ordinary
tuple.  In the real-division model the zero divisions evaluate to `0`,
so at `S=45, K=40, T=0, r=1/10, vol=1/5` the pricer returns
`(0, 0, 5/2, -5/2)` — a silent result, not an `InvalidInputError`. -/
theorem pricer_T_zero_counterexample :
    calculate_black_scholes 45 40 0 (1/10) (1/5) = (0, 0, 5/2, -5/2) := by
  rw [calculate_black_scholes_T_zero]
  norm_num

/-- C4 amended: the pricer performs no input validation.  Called with
`T = 0` it returns normally for every `S`, `K`, `r`, `vol` — the
division by `vol*sqrt(T) = 0` propagates silently into the result
(NaN/Inf in floating point, `0` in the real-division model) and no
`InvalidInputError` or other error signal is raised. -/
theorem pricer_no_validation_at_T_zero (S K r vol : ℝ) :
    calculate_black_scholes S K 0 r vol = (0, 0, (S - K) / 2, (K - S) / 2) :=
  calculate_black_scholes_T_zero S K r vol

/-- C5: put–call parity.  For every valid input (`S>0`, `K>0`, `T>0`,
`vol>0`) the pricer's outputs satisfy
`callPrice - putPrice = S - K*exp(-r*T)` within tolerance `1e-6`
(in the real model the identity is exact). -/
theorem put_call_parity (S K T r vol : ℝ)
    (hS : 0 < S) (hK : 0 < K) (hT : 0 < T) (hvol : 0 < vol) :
    |(calculate_black_scholes S K T r vol).2.2.1 -
        (calculate_black_scholes S K T r vol).2.2.2 -
        (S - K * Real.exp (-r * T))| ≤ 1e-6 := by
  have key : (calculate_black_scholes S K T r vol).2.2.1 -
      (calculate_black_scholes S K T r vol).2.2.2 -
      (S - K * Real.exp (-r * T)) = 0 := by
    simp only [calculate_black_scholes]
    have h1 := norm_cdf_add_norm_cdf_neg
      ((Real.log (S / K) + (r + 0.5 * vol ^ 2) * T) / (vol * Real.sqrt T))
    have h2 := norm_cdf_add_norm_cdf_neg
      ((Real.log (S / K) + (r + 0.5 * vol ^ 2) * T) / (vol * Real.sqrt T) - vol * Real.sqrt T)
    linear_combination S * h1 - K * Real.exp (-r * T) * h2
  rw [key]
  norm_num

/-- Witness for C5 at `S=45, K=40, T=1/2, r=1/10, vol=1/5`. -/
theorem put_call_parity_witness :
    |(calculate_black_scholes 45 40 (1/2) (1/10) (1/5)).2.2.1 -
        (calculate_black_scholes 45 40 (1/2) (1/10) (1/5)).2.2.2 -
        (45 - 40 * Real.exp (-(1/10) * (1/2)))| ≤ 1e-6 :=
  put_call_parity 45 40 (1/2) (1/10) (1/5)
    (by norm_num) (by norm_num) (by norm_num) (by norm_num)

/-- C10 (implicit): for every confidence level strictly between 0 and 1
and every positive simulation count, the index `int((1-c)*n)` lies in
`[0, n-1]`, so indexing the length-`n` sorted sample never goes out of
bounds: the VaR value is `some` of the negated sample element, never an
`IndexError`, even though the code performs no explicit clamping. -/
theorem var_index_in_bounds (pv ret vol : ℝ) (days : ℕ) (c : ℝ) (us : List (ℝ × ℝ))
    (hc0 : 0 < c) (hc1 : c < 1) (hn : 0 < us.length) :
    0 ≤ var_index c us.length ∧ var_index c us.length ≤ (us.length : ℤ) - 1 ∧
    var_value pv ret vol days c us =
      some (-(sortedReturns pv ret vol days us).getD (var_index c us.length).toNat 0) := by
  obtain ⟨heq, h0, hlt⟩ := var_index_bounds (n := us.length) hc0 hc1 hn
  refine ⟨h0, by omega, ?_⟩
  unfold var_value
  rw [pyGet_eq_some h0 (by rw [length_sortedReturns]; exact hlt)]
  rfl

/-- Witness for C10: confidence `1/2`, one simulated trial with draw
pair `(1, 0)`. -/
theorem var_index_in_bounds_witness :
    0 ≤ var_index (1/2) (List.length [((1 : ℝ), (0 : ℝ))]) ∧
    var_index (1/2) (List.length [((1 : ℝ), (0 : ℝ))]) ≤ (List.length [((1 : ℝ), (0 : ℝ))] : ℤ) - 1 ∧
    var_value 1 0 1 1 (1/2) [((1 : ℝ), (0 : ℝ))] =
      some (-(sortedReturns 1 0 1 1 [((1 : ℝ), (0 : ℝ))]).getD
        (var_index (1/2) (List.length [((1 : ℝ), (0 : ℝ))])).toNat 0) :=
  var_index_in_bounds 1 0 1 1 (1/2) [((1 : ℝ), (0 : ℝ))]
    (by norm_num) (by norm_num) (by norm_num)

/-- C6: for every positive simulation count, the sorted sample produced
by the VaR engine has length exactly the simulation count (the length
of the uniform draw list) and is sorted in ascending order. -/
theorem sorted_sample_invariant (pv ret vol : ℝ) (days : ℕ) (us : List (ℝ × ℝ))
    (hn : 0 < us.length) :
    (sortedReturns pv ret vol days us).length = us.length ∧
    List.Sorted (· ≤ ·) (sortedReturns pv ret vol days us) :=
  ⟨length_sortedReturns pv ret vol days us, List.sorted_insertionSort _ _⟩

/-- Witness for C6 at one trial with draw pair `(1, 0)`. -/
theorem sorted_sample_invariant_witness :
    (sortedReturns 1 0 1 1 [((1 : ℝ), (0 : ℝ))]).length = List.length [((1 : ℝ), (0 : ℝ))] ∧
    List.Sorted (· ≤ ·) (sortedReturns 1 0 1 1 [((1 : ℝ), (0 : ℝ))]) :=
  sorted_sample_invariant 1 0 1 1 [((1 : ℝ), (0 : ℝ))] (by norm_num)

/-- C7: every scenario value of the Monte Carlo sample is computed from
its trial's standard-normal draw `z` as
`portfolioValue*dailyReturn*horizonDays +
portfolioValue*dailyVolatility*z*sqrt(horizonDays)`. -/
theorem scenario_value_formula (pv ret vol : ℝ) (days : ℕ) (us : List (ℝ × ℝ)) (i : ℕ)
    (h : i < us.length) :
    (mcReturns pv ret vol days us).getD i 0 =
      pv * ret * days + pv * vol * boxMuller (us.getD i ((0 : ℝ), (0 : ℝ))) * Real.sqrt days := by
  have hm : i < (mcReturns pv ret vol days us).length := by
    simpa [mcReturns] using h
  rw [List.getD_eq_getElem _ _ hm, List.getD_eq_getElem _ _ h]
  simp [mcReturns, scenario_return]

/-- Witness for C7 at trial 0 of a one-trial simulation. -/
theorem scenario_value_formula_witness :
    (mcReturns 1 0 1 1 [((1 : ℝ), (0 : ℝ))]).getD 0 0 =
      1 * 0 * (1 : ℕ) + 1 * 1 * boxMuller ([((1 : ℝ), (0 : ℝ))].getD 0 ((0 : ℝ), (0 : ℝ))) *
        Real.sqrt (1 : ℕ) :=
  scenario_value_formula 1 0 1 1 [((1 : ℝ), (0 : ℝ))] 0 (by norm_num)

/-- C8: each standard-normal variate is synthesized from its pair of
uniform draws by the Box–Muller formula
`z = sqrt(-2*ln(u1)) * cos(2*pi*u2)`, and `z` is a pure function of the
pair, so fixed uniform inputs reproduce the same `z`. -/
theorem boxMuller_formula_and_reproducible :
    (∀ u1 u2 : ℝ,
      boxMuller (u1, u2) = Real.sqrt (-2 * Real.log u1) * Real.cos (2 * Real.pi * u2)) ∧
    (∀ u u' : ℝ × ℝ, u = u' → boxMuller u = boxMuller u') :=
  ⟨fun _ _ => rfl, fun _ _ h => by rw [h]⟩

/-- Witness for C8 at the uniform pair `(1, 0)`. -/
theorem boxMuller_formula_and_reproducible_witness :
    boxMuller ((1 : ℝ), (0 : ℝ)) = Real.sqrt (-2 * Real.log 1) * Real.cos (2 * Real.pi * 0) ∧
    boxMuller ((1 : ℝ), (0 : ℝ)) = boxMuller ((1 : ℝ), (0 : ℝ)) :=
  ⟨boxMuller_formula_and_reproducible.1 1 0,
   boxMuller_formula_and_reproducible.2 (1, 0) (1, 0) rfl⟩

/-- C9: noninterference of the ticker list.  Two runs of the VaR tab
with the same numeric parameters and the same uniform draws but
different ticker-list inputs (both the checkbox and the free-text
field) return identical `varValue`, `meanReturn`, `stdDev` and
`sortedSample`: the ticker list has no influence on the simulated
distribution. -/
theorem ticker_noninterference (b b' : Bool) (s s' : String) (pv : ℝ) (days : ℕ)
    (c : ℝ) (us : List (ℝ × ℝ)) :
    (varTab b s pv days c us).varValue = (varTab b' s' pv days c us).varValue ∧
    (varTab b s pv days c us).meanReturn = (varTab b' s' pv days c us).meanReturn ∧
    (varTab b s pv days c us).stdDev = (varTab b' s' pv days c us).stdDev ∧
    (varTab b s pv days c us).sortedSample = (varTab b' s' pv days c us).sortedSample :=
  ⟨rfl, rfl, rfl, rfl⟩

/-! ## Concrete evaluations for the counterexamples -/

lemma boxMuller_exp_half_half : boxMuller (Real.exp (-(1/2 : ℝ)), 1/2) = -1 := by
  simp only [boxMuller, Real.log_exp]
  rw [show (2 : ℝ) * Real.pi * (1/2) = Real.pi by ring, Real.cos_pi]
  rw [show (-2 : ℝ) * -(1/2) = 1 by norm_num, Real.sqrt_one]
  norm_num

lemma boxMuller_exp_half_zero : boxMuller (Real.exp (-(1/2 : ℝ)), 0) = 1 := by
  simp only [boxMuller, Real.log_exp]
  rw [show (2 : ℝ) * Real.pi * (0 : ℝ) = 0 by ring, Real.cos_zero]
  rw [show (-2 : ℝ) * -(1/2) = 1 by norm_num, Real.sqrt_one]
  norm_num

lemma boxMuller_one_zero : boxMuller ((1 : ℝ), (0 : ℝ)) = 0 := by
  simp [boxMuller]

lemma scenario_return_id (z : ℝ) : scenario_return 1 0 1 1 z = z := by
  simp [scenario_return]

lemma mcReturns_two_draws :
    mcReturns 1 0 1 1 [(Real.exp (-(1/2 : ℝ)), 1/2), (Real.exp (-(1/2 : ℝ)), 0)] =
      [-1, 1] := by
  unfold mcReturns
  rw [List.map_cons, List.map_cons, List.map_nil]
  rw [boxMuller_exp_half_half, boxMuller_exp_half_zero,
    scenario_return_id, scenario_return_id]

lemma sortedReturns_two_draws :
    sortedReturns 1 0 1 1 [(Real.exp (-(1/2 : ℝ)), 1/2), (Real.exp (-(1/2 : ℝ)), 0)] =
      [-1, 1] := by
  unfold sortedReturns
  rw [mcReturns_two_draws]
  norm_num [List.insertionSort, List.orderedInsert]

lemma var_index_three_halves_two : var_index (3/2) 2 = -1 := by
  unfold var_index pyInt
  rw [if_neg (by norm_num)]
  norm_num

lemma var_index_three_halves_one : var_index (3/2) 1 = 0 := by
  unfold var_index pyInt
  rw [if_neg (by norm_num)]
  norm_num

/-- C2 (amended): for every `confidenceLevel` strictly between 0 and 1
and every nonempty draw list, `var_index` equals
`floor((1 - confidenceLevel) * simulationCount)`, that index already
lies in `[0, simulationCount-1]` — so clamping it to that range is the
identity (the code performs no clamping) — and the returned VaR value
is the negation of the sorted sample's element at that index. -/
theorem var_value_clamped_quantile (pv ret vol : ℝ) (days : ℕ) (c : ℝ) (us : List (ℝ × ℝ))
    (hc0 : 0 < c) (hc1 : c < 1) (hn : 0 < us.length) :
    var_index c us.length = ⌊(1 - c) * (us.length : ℝ)⌋ ∧
    max 0 (min ⌊(1 - c) * (us.length : ℝ)⌋ ((us.length : ℤ) - 1)) =
      ⌊(1 - c) * (us.length : ℝ)⌋ ∧
    var_value pv ret vol days c us =
      some (-(sortedReturns pv ret vol days us).getD (⌊(1 - c) * (us.length : ℝ)⌋).toNat 0) := by
  obtain ⟨heq, h0, hlt⟩ := var_index_bounds (n := us.length) hc0 hc1 hn
  rw [heq] at h0 hlt
  refine ⟨heq, by omega, ?_⟩
  unfold var_value
  rw [heq, pyGet_eq_some h0 (by rw [length_sortedReturns]; exact hlt)]
  rfl

/-- Witness for C2 at confidence `1/2` with two trials. -/
theorem var_value_clamped_quantile_witness :
    var_index (1/2) (List.length [((1 : ℝ), (0 : ℝ)), ((1 : ℝ), (0 : ℝ))]) =
      ⌊(1 - (1/2 : ℝ)) * ((List.length [((1 : ℝ), (0 : ℝ)), ((1 : ℝ), (0 : ℝ))] : ℕ) : ℝ)⌋ ∧
    max 0 (min ⌊(1 - (1/2 : ℝ)) * ((List.length [((1 : ℝ), (0 : ℝ)), ((1 : ℝ), (0 : ℝ))] : ℕ) : ℝ)⌋
        ((List.length [((1 : ℝ), (0 : ℝ)), ((1 : ℝ), (0 : ℝ))] : ℤ) - 1)) =
      ⌊(1 - (1/2 : ℝ)) * ((List.length [((1 : ℝ), (0 : ℝ)), ((1 : ℝ), (0 : ℝ))] : ℕ) : ℝ)⌋ ∧
    var_value 1 0 1 1 (1/2) [((1 : ℝ), (0 : ℝ)), ((1 : ℝ), (0 : ℝ))] =
      some (-(sortedReturns 1 0 1 1 [((1 : ℝ), (0 : ℝ)), ((1 : ℝ), (0 : ℝ))]).getD
        (⌊(1 - (1/2 : ℝ)) *
          ((List.length [((1 : ℝ), (0 : ℝ)), ((1 : ℝ), (0 : ℝ))] : ℕ) : ℝ)⌋).toNat 0) :=
  var_value_clamped_quantile 1 0 1 1 (1/2) [((1 : ℝ), (0 : ℝ)), ((1 : ℝ), (0 : ℝ))]
    (by norm_num) (by norm_num) (by norm_num)

/-- C2 counterexample: the claim quantifies over every
`confidenceLevel`, but the code clamps nothing.  With
`confidenceLevel = 3/2` and two trials whose draws produce the sorted
sample `[-1, 1]`, the code computes `var_index = int(-1.0) = -1` and
Python's negative indexing returns the LAST element, giving
`varValue = -1`; the claim's clamped index is `0`, whose sign-flipped
element is `1`.  So the returned value differs from the claimed one. -/
theorem var_value_clamped_quantile_counterexample :
    var_value 1 0 1 1 (3/2) [(Real.exp (-(1/2 : ℝ)), 1/2), (Real.exp (-(1/2 : ℝ)), 0)] =
      some (-1) ∧
    -(sortedReturns 1 0 1 1 [(Real.exp (-(1/2 : ℝ)), 1/2), (Real.exp (-(1/2 : ℝ)), 0)]).getD
        (max 0 (min ⌊(1 - (3/2 : ℝ)) * ((2 : ℕ) : ℝ)⌋ ((2 : ℤ) - 1))).toNat 0 = 1 ∧
    var_value 1 0 1 1 (3/2) [(Real.exp (-(1/2 : ℝ)), 1/2), (Real.exp (-(1/2 : ℝ)), 0)] ≠
      some (-(sortedReturns 1 0 1 1
          [(Real.exp (-(1/2 : ℝ)), 1/2), (Real.exp (-(1/2 : ℝ)), 0)]).getD
        (max 0 (min ⌊(1 - (3/2 : ℝ)) * ((2 : ℕ) : ℝ)⌋ ((2 : ℤ) - 1))).toNat 0) := by
  have hclamp : (max 0 (min ⌊(1 - (3/2 : ℝ)) * ((2 : ℕ) : ℝ)⌋ ((2 : ℤ) - 1))).toNat = 0 := by
    norm_num
  have key : ∀ us : List (ℝ × ℝ), us.length = 2 → sortedReturns 1 0 1 1 us = [-1, 1] →
      var_value 1 0 1 1 (3/2) us = some (-1) := by
    intro us hlen hsort
    unfold var_value
    rw [hlen, hsort, var_index_three_halves_two]
    rfl
  have hval : var_value 1 0 1 1 (3/2)
      [(Real.exp (-(1/2 : ℝ)), 1/2), (Real.exp (-(1/2 : ℝ)), 0)] = some (-1) :=
    key _ rfl sortedReturns_two_draws
  refine ⟨hval, ?_, ?_⟩
  · rw [hclamp, sortedReturns_two_draws]
    norm_num
  · rw [hval, hclamp, sortedReturns_two_draws]
    norm_num

/-- C3 (amended): the VaR computation performs no input validation.
With `confidenceLevel = 3/2` (outside `(0,1)`) and any nonempty draw
list it does not fail with `InvalidInputError`: the negative index
produced by `int((1-1.5)*n)` silently wraps around (Python negative
indexing) and a result is returned.  (With an empty draw list the
failure is an `IndexError`, not an `InvalidInputError`.) -/
theorem var_no_confidence_validation (pv ret vol : ℝ) (days : ℕ) (us : List (ℝ × ℝ))
    (hne : us ≠ []) :
    ∃ v, var_value pv ret vol days (3/2) us = some v := by
  have hn : 0 < us.length := List.length_pos.mpr hne
  have hnR : (0 : ℝ) < us.length := by exact_mod_cast hn
  have hx : ¬ (0 : ℝ) ≤ (1 - 3/2) * us.length := by
    push_neg
    nlinarith
  have hidx : var_index (3/2) us.length = -⌊-((1 - (3/2 : ℝ)) * us.length)⌋ := by
    unfold var_index pyInt
    rw [if_neg hx]
  have hk0 : (0 : ℤ) ≤ ⌊-((1 - (3/2 : ℝ)) * us.length)⌋ :=
    Int.floor_nonneg.mpr (by nlinarith)
  have hkn : ⌊-((1 - (3/2 : ℝ)) * us.length)⌋ < (us.length : ℤ) := by
    apply Int.floor_lt.mpr
    push_cast
    nlinarith
  obtain ⟨x, hxg⟩ := pyGet_isSome (l := sortedReturns pv ret vol days us)
    (i := var_index (3/2) us.length)
    (by rw [length_sortedReturns, hidx]; omega)
    (by rw [length_sortedReturns, hidx]; omega)
  refine ⟨-x, ?_⟩
  unfold var_value
  rw [hxg]
  rfl

/-- Witness for C3's amended statement at one trial. -/
theorem var_no_confidence_validation_witness :
    ∃ v, var_value 1 0 1 1 (3/2) [((1 : ℝ), (0 : ℝ))] = some v :=
  var_no_confidence_validation 1 0 1 1 [((1 : ℝ), (0 : ℝ))] (by simp)

/-- C3 counterexample: with `confidenceLevel = 1.5` and one trial whose
draw pair is `(1, 0)` (so the scenario value is `0`), the computation
does not fail: `int((1-1.5)*1) = 0` truncates toward zero, element `0`
of the sample is read, and `varValue = 0` is returned — no
`InvalidInputError`, no failure at all. -/
theorem var_invalid_confidence_counterexample :
    var_value 1 0 1 1 (3/2) [((1 : ℝ), (0 : ℝ))] = some 0 ∧
    var_value 1 0 1 1 (3/2) [((1 : ℝ), (0 : ℝ))] ≠ none := by
  have hsort : sortedReturns 1 0 1 1 [((1 : ℝ), (0 : ℝ))] = [0] := by
    unfold sortedReturns mcReturns
    rw [List.map_cons, List.map_nil, boxMuller_one_zero, scenario_return_id]
    rfl
  have key : ∀ us : List (ℝ × ℝ), us.length = 1 → sortedReturns 1 0 1 1 us = [0] →
      var_value 1 0 1 1 (3/2) us = some 0 := by
    intro us hlen hsort'
    unfold var_value
    rw [hlen, hsort', var_index_three_halves_one]
    show some (-(0 : ℝ)) = some 0
    norm_num
  have hval : var_value 1 0 1 1 (3/2) [((1 : ℝ), (0 : ℝ))] = some 0 :=
    key _ rfl hsort
  exact ⟨hval, by rw [hval]; simp⟩
